import Mathlib

/-!
Shallow embedding of `src/main.py` of the khoj repository: the query
routing endpoint (`search`), model regeneration (`regenerate`), the chat
orchestrator (`chat`), startup loading (`initialize_processor`) and shutdown
finalization (`shutdown_event`).

The per-content-type search backends (`src.search_type.asymmetric`,
`src.search_type.symmetric_ledger`, `src.search_type.image_search`) and the
LLM wrappers (`understand`, `converse`, `summarize`) are external
collaborators: they are modelled as opaque function parameters collected in
the `Modules`, `SetupOps` and `GptOps` records.  Fallible external calls
return `Except`.  The helpers `message_to_log` and `message_to_prompt` live
in `src/processor/conversation/gpt.py`, which is part of the repository but
not included under `src/`; they are modelled from the spec (see their doc
comments).
-/

namespace Khoj

/-- The `SearchType` enumeration from `src/utils/config.py` (external config
module): the content types Notes, Music, Ledger, Image.  The Python API
wraps it in `Optional`, with `None` meaning "all types". -/
inductive SearchType
  | Notes
  | Music
  | Ledger
  | Image
deriving DecidableEq, Repr

/-- A text search model handle (the result of `asymmetric.setup` or
`symmetric_ledger.setup`).  Only the `entries` field is read by
`src/main.py`; everything else about the handle is folded into the opaque
`Entry` type. -/
structure TextSearchModel (Entry : Type) where
  entries : List Entry
deriving DecidableEq, Repr

/-- An image search model handle (the result of `image_search.setup`).
Only the `image_names` field is read by `src/main.py`. -/
structure ImageSearchModel (ImgName : Type) where
  image_names : List ImgName
deriving DecidableEq, Repr

/-- The `SearchModels` registry from `src/utils/config.py`: one optional handle
per content type; a handle is `none` when that type was never initialized. -/
structure SearchModels (Entry LEntry ImgName : Type) where
  notes_search : Option (TextSearchModel Entry) := none
  music_search : Option (TextSearchModel Entry) := none
  ledger_search : Option (TextSearchModel LEntry) := none
  image_search : Option (ImageSearchModel ImgName) := none
deriving DecidableEq, Repr

/-- Image search configuration.  `src/main.py` reads only
`search_config.image.input_directory`; the rest of the configuration is the
opaque `config` payload. -/
structure ImageSearchConfig (IC : Type) where
  input_directory : String
  config : IC
deriving DecidableEq, Repr

/-- The `SearchConfig` registry from `src/utils/config.py`: per-type optional
configuration; `none` means the content type is unconfigured. -/
structure SearchConfig (TC IC : Type) where
  notes : Option TC := none
  music : Option TC := none
  ledger : Option TC := none
  image : Option (ImageSearchConfig IC) := none
deriving DecidableEq, Repr

/-- Opaque backend module functions imported at the top of `src/main.py`.
Each `query` / `collate_results` call may fail (a backend exception
propagates to the caller), hence `Except ε`.  `entry_of` models the
dictionary access `item["Entry"]` performed on collated notes results in
`chat`. -/
structure Modules (ε Entry LEntry ImgName Hit LHit IHit R : Type) where
  asymmetric_query : String → TextSearchModel Entry → Except ε (List Hit)
  asymmetric_collate_results : List Hit → List Entry → Nat → Except ε (List R)
  symmetric_ledger_query : String → TextSearchModel LEntry → Except ε (List LHit)
  symmetric_ledger_collate_results : List LHit → List LEntry → Nat → Except ε (List R)
  image_query : String → Nat → ImageSearchModel ImgName → Except ε (List IHit)
  image_collate_results : List IHit → List ImgName → Option String → Nat → Except ε (List R)
  entry_of : R → String

/-- Output of one `search` call: the value returned by the endpoint
(`.ok results`, or `.error` when a backend raised), instrumented with the
list of backend invocations the call performed, in order.  The Python
`return \x7b\x7d` on the no-match and empty-query paths is an empty result
set, modelled as `.ok []`. -/
structure SearchOutput (ε R : Type) where
  result : Except ε (List R)
  invoked : List SearchType
deriving Repr

variable {ε Entry LEntry ImgName Hit LHit IHit R TC IC Raw : Type}

/-- The `/search` endpoint, `src/main.py` lines 26-67.  `q : Option String`
models the `q is None or q == ''` guard (the `chat` orchestrator can pass
`None` through `get_from_dict`).  The four branches mirror the source:
fixed order Notes, Music, Ledger, Image; each branch requires the type
filter to match (or be unset) and the handle to be present, queries that
one backend and returns its collated results immediately.  The image branch
passes `search_config.image.input_directory`; the projection is deferred to
the opaque collator as an `Option String` (`none` corresponds to the
`search_config.image` being absent, an `AttributeError` path never reached
when handles are only built from present configs). -/
def search (q : Option String) (n : Nat) (t : Option SearchType)
    (cfg : SearchConfig TC IC) (m : SearchModels Entry LEntry ImgName)
    (mods : Modules ε Entry LEntry ImgName Hit LHit IHit R) :
    SearchOutput ε R :=
  if q = none ∨ q = some "" then
    { result := .ok [], invoked := [] }
  else
    let user_query := q.getD ""
    let results_count := n
    if h1 : (t = some SearchType.Notes ∨ t = none) ∧ m.notes_search.isSome then
      let ns := m.notes_search.get h1.2
      { result :=
          match mods.asymmetric_query user_query ns with
          | .error e => .error e
          | .ok hits => mods.asymmetric_collate_results hits ns.entries results_count,
        invoked := [SearchType.Notes] }
    else if h2 : (t = some SearchType.Music ∨ t = none) ∧ m.music_search.isSome then
      let ms := m.music_search.get h2.2
      { result :=
          match mods.asymmetric_query user_query ms with
          | .error e => .error e
          | .ok hits => mods.asymmetric_collate_results hits ms.entries results_count,
        invoked := [SearchType.Music] }
    else if h3 : (t = some SearchType.Ledger ∨ t = none) ∧ m.ledger_search.isSome then
      let ls := m.ledger_search.get h3.2
      { result :=
          match mods.symmetric_ledger_query user_query ls with
          | .error e => .error e
          | .ok hits => mods.symmetric_ledger_collate_results hits ls.entries results_count,
        invoked := [SearchType.Ledger] }
    else if h4 : (t = some SearchType.Image ∨ t = none) ∧ m.image_search.isSome then
      let is := m.image_search.get h4.2
      { result :=
          match mods.image_query user_query results_count is with
          | .error e => .error e
          | .ok hits =>
              mods.image_collate_results hits is.image_names
                (cfg.image.map ImageSearchConfig.input_directory) results_count,
        invoked := [SearchType.Image] }
    else
      { result := .ok [], invoked := [] }

/-- Specification-side routing function, written from the spec's words:
the first content type in the fixed priority order Notes, Music, Ledger,
Image whose filter matches (or the filter is unset) and whose backend
handle is present; `none` when no type qualifies. -/
def firstMatchingBackend (t : Option SearchType)
    (m : SearchModels Entry LEntry ImgName) : Option SearchType :=
  if (t = some SearchType.Notes ∨ t = none) ∧ m.notes_search.isSome then
    some SearchType.Notes
  else if (t = some SearchType.Music ∨ t = none) ∧ m.music_search.isSome then
    some SearchType.Music
  else if (t = some SearchType.Ledger ∨ t = none) ∧ m.ledger_search.isSome then
    some SearchType.Ledger
  else if (t = some SearchType.Image ∨ t = none) ∧ m.image_search.isSome then
    some SearchType.Image
  else
    none

/-- The collated output of a single backend, exactly as the corresponding
`search` branch computes it (querying the backend, then collating against
its corpus); `.ok []` when the handle is absent (in which case `search`
never selects this type). -/
def backendOutput (ty : SearchType) (q : String) (n : Nat)
    (cfg : SearchConfig TC IC) (m : SearchModels Entry LEntry ImgName)
    (mods : Modules ε Entry LEntry ImgName Hit LHit IHit R) :
    Except ε (List R) :=
  match ty with
  | .Notes =>
    match m.notes_search with
    | none => .ok []
    | some ns =>
      match mods.asymmetric_query q ns with
      | .error e => .error e
      | .ok hits => mods.asymmetric_collate_results hits ns.entries n
  | .Music =>
    match m.music_search with
    | none => .ok []
    | some ms =>
      match mods.asymmetric_query q ms with
      | .error e => .error e
      | .ok hits => mods.asymmetric_collate_results hits ms.entries n
  | .Ledger =>
    match m.ledger_search with
    | none => .ok []
    | some ls =>
      match mods.symmetric_ledger_query q ls with
      | .error e => .error e
      | .ok hits => mods.symmetric_ledger_collate_results hits ls.entries n
  | .Image =>
    match m.image_search with
    | none => .ok []
    | some is =>
      match mods.image_query q n is with
      | .error e => .error e
      | .ok hits =>
        mods.image_collate_results hits is.image_names
          (cfg.image.map ImageSearchConfig.input_directory) n

/-- Structured intent metadata returned by `understand`.  `get_from_dict`
returns `None` when a key is missing at any level, so both levels are
optional: `memory_type` models `metadata["intent"]["memory-type"]` and
`query` models `metadata["intent"]["query"]`. -/
structure Intent where
  memory_type : Option String := none
  query : Option String := none
deriving DecidableEq, Repr

/-- Metadata dictionary returned by `understand`; `intent = none` models a
missing `"intent"` key. -/
structure Metadata where
  intent : Option Intent := none
deriving DecidableEq, Repr

/-- Models `get_from_dict(metadata, "intent", "memory-type")`. -/
def memoryTypeOf (md : Metadata) : Option String :=
  md.intent.bind Intent.memory_type

/-- Models `get_from_dict(metadata, "intent", "query")`. -/
def queryOf (md : Metadata) : Option String :=
  md.intent.bind Intent.query

/-- One record of `meta_log["chat"]`: the original query, the full
classified-intent metadata and the model's response. -/
structure TurnRecord where
  query : String
  metadata : Metadata
  response : String
deriving DecidableEq, Repr

/-- One record of `meta_log["session"]`.  Field names stand for the JSON
keys `"summary"`, `"session-start"` and `"session-end"`. -/
structure SessionRecord where
  summary : String
  session_start : Nat
  session_end : Nat
deriving DecidableEq, Repr

/-- The conversation metadata log, a JSON dictionary on disk.  A field
being `none` models the key being absent (so `chat = some []` is the key
present with an empty list).  `others` lists the names of any further
top-level keys a loaded document may carry. -/
structure MetaLog where
  chat : Option (List TurnRecord) := none
  session : Option (List SessionRecord) := none
  others : List String := []
deriving DecidableEq, Repr

/-- Python truthiness of the `meta_log` dictionary: empty iff it has no
keys at all. -/
def MetaLog.isEmpty (ml : MetaLog) : Bool :=
  ml.chat.isNone && ml.session.isNone && ml.others.isEmpty

/-- Length of `meta_log["chat"]`, reading an absent key as the empty list
(`meta_log.get('chat', [])`). -/
def MetaLog.chatLength (ml : MetaLog) : Nat :=
  (ml.chat.getD []).length

/-- Length of `meta_log["session"]`, reading an absent key as empty. -/
def MetaLog.sessionLength (ml : MetaLog) : Nat :=
  (ml.session.getD []).length

/-- The mutable conversation state held in
`processor_config.conversation`: the running prompt transcript and the
metadata log. -/
structure ConversationState where
  chat_session : String
  meta_log : MetaLog
deriving DecidableEq, Repr

/-- Opaque LLM wrapper functions from `src/processor/conversation/gpt.py`
(external collaborators; the `api_key` plumbing is omitted).  `summarize`
takes the text, the `summary_type`, and an optional `user_query` (passed by
`chat`, omitted by `shutdown_event`). -/
structure GptOps (ε : Type) where
  understand : String → Except ε Metadata
  summarize : String → String → Option String → Except ε String
  converse : String → String → Except ε String

/-- Modelled from the spec: `message_to_log` from
`src/processor/conversation/gpt.py` is not included under `src/`; per the
spec it appends the original query, the full classified-intent metadata and
the model's response as one record to the chat log. -/
def message_to_log (user_message : String) (metadata : Metadata)
    (gpt_message : String) (conversation_log : List TurnRecord) :
    List TurnRecord :=
  conversation_log ++ [⟨user_message, metadata, gpt_message⟩]

/-- Modelled from the spec: `message_to_prompt` from
`src/processor/conversation/gpt.py` is not included under `src/`; per the
spec it appends the query and the response to the running transcript (the
exact separator text is unspecified and irrelevant to the claims). -/
def message_to_prompt (user_message chat_session gpt_message : String) :
    String :=
  chat_session ++ user_message ++ gpt_message

/-- One external call performed by the `chat` endpoint, with its
arguments: the instrumentation trace recording which collaborators a turn
invoked. -/
inductive ExtCall
  | understand (q : String)
  | search (q : Option String) (n : Nat) (t : Option SearchType)
  | summarize (text : String) (summary_type : String) (user_query : Option String)
  | converse (q : String) (chat_session : String)
deriving DecidableEq, Repr

/-- The `/chat` endpoint, `src/main.py` lines 91-111: classify the query
with `understand`; on a `"notes"` memory intent run `search` with the
refined query, count 1 and the Notes filter, join the returned entries'
bodies with newlines and summarize; otherwise converse over the current
transcript.  Returns the trace of external calls made, and either the
error of the first failing call (the Python exception propagates before
any state mutation, which happens only in the final two assignments) or
the response together with the updated state. -/
def chat (q : String) (st : ConversationState)
    (cfg : SearchConfig TC IC) (m : SearchModels Entry LEntry ImgName)
    (mods : Modules ε Entry LEntry ImgName Hit LHit IHit R)
    (g : GptOps ε) :
    List ExtCall × Except ε (String × ConversationState) :=
  let chat_session := st.chat_session
  let meta_log := st.meta_log
  match g.understand q with
  | .error e => ([.understand q], .error e)
  | .ok metadata =>
    if memoryTypeOf metadata = some "notes" then
      let query := queryOf metadata
      let sr := search query 1 (some SearchType.Notes) cfg m mods
      match sr.result with
      | .error e =>
        ([.understand q, .search query 1 (some SearchType.Notes)], .error e)
      | .ok result_list =>
        let collated_result :=
          String.intercalate "\n" (result_list.map mods.entry_of)
        let calls :=
          [ExtCall.understand q, .search query 1 (some SearchType.Notes),
           .summarize collated_result "notes" (some q)]
        match g.summarize collated_result "notes" (some q) with
        | .error e => (calls, .error e)
        | .ok gpt_response =>
          (calls,
           .ok (gpt_response,
             { chat_session := message_to_prompt q chat_session gpt_response,
               meta_log :=
                 { meta_log with
                   chat := some (message_to_log q metadata gpt_response
                     (meta_log.chat.getD [])) } }))
    else
      let calls := [ExtCall.understand q, .converse q chat_session]
      match g.converse q chat_session with
      | .error e => (calls, .error e)
      | .ok gpt_response =>
        (calls,
         .ok (gpt_response,
           { chat_session := message_to_prompt q chat_session gpt_response,
             meta_log :=
               { meta_log with
                 chat := some (message_to_log q metadata gpt_response
                   (meta_log.chat.getD [])) } }))

/-- Run a sequence of chat turns against the server state.  A failed turn
raises out of the endpoint without mutating the state (all mutations in
`chat` happen after the last fallible call), so the fold keeps the previous
state; the second component counts the successfully completed turns. -/
def runTurns (cfg : SearchConfig TC IC) (m : SearchModels Entry LEntry ImgName)
    (mods : Modules ε Entry LEntry ImgName Hit LHit IHit R) (g : GptOps ε) :
    List String → ConversationState → ConversationState × Nat
  | [], st => (st, 0)
  | q :: qs, st =>
    match (chat q st cfg m mods g).2 with
    | .ok (_, st') =>
      let rest := runTurns cfg m mods g qs st'
      (rest.1, rest.2 + 1)
    | .error _ => runTurns cfg m mods g qs st

/-- Startup loader `initialize_processor`, `src/main.py` lines 141-161, abstracted over
the filesystem: `logfile = some raw` models the configured conversation
logfile existing as a regular file with raw contents `raw`, `none` models
it being absent.  `json_load` is the opaque JSON parser; a parse failure is
the uncaught `json.load` exception, fatal to startup.  `chat_session`
starts as the config default, the empty string. -/
def initialize_processor (logfile : Option Raw)
    (json_load : Raw → Except ε MetaLog) : Except ε ConversationState :=
  match logfile with
  | some raw =>
    match json_load raw with
    | .ok ml => .ok { chat_session := "", meta_log := ml }
    | .error e => .error e
  | none => .ok { chat_session := "", meta_log := {} }

/-- A Python exception raised inside `shutdown_event`: the propagated
failure of the external `summarize` call, the `IndexError` of `[-1]` on an
empty `"session"` list, or the `KeyError` of the unguarded
`conversation_log["chat"]` lookup. -/
inductive ShutdownErr (ε : Type)
  | summarizeError (e : ε)
  | indexError
  | keyError (k : String)
deriving DecidableEq, Repr

/-- Outcome of `shutdown_event`: the state after the handler (unchanged
when it returned early or raised, since every fallible expression is
evaluated before the `conversation_log['session']` mutation), whether the
log file was written, whether `summarize` was invoked, and the exception
if one was raised. -/
structure ShutdownResult (ε : Type) where
  state : ConversationState
  written : Bool
  summarize_called : Bool
  error : Option (ShutdownErr ε)
deriving Repr

/-- Shutdown handler `shutdown_event`, `src/main.py` lines 164-191: return early when
`meta_log` is empty; otherwise build the session summary record — the
dictionary literal evaluates `summarize(chat_session, "chat")` first, then
`conversation_log.get("session", [\x7b"session-end": 0\x7d])[-1]["session-end"]`
(of which only the `"session-end"` key of the last element is observed, `0`
for the default; `[-1]` on a present-but-empty list raises `IndexError`),
then `len(conversation_log["chat"])` (raising `KeyError` when the key is
absent) — append it to the `"session"` list (creating it if absent) and
write the whole log to disk (the write itself is modelled as succeeding). -/
def shutdown_event (g : GptOps ε) (st : ConversationState) :
    ShutdownResult ε :=
  if st.meta_log.isEmpty then
    { state := st, written := false, summarize_called := false, error := none }
  else
    match g.summarize st.chat_session "chat" none with
    | .error e =>
      { state := st, written := false, summarize_called := true,
        error := some (.summarizeError e) }
    | .ok summary =>
      let startE : Except (ShutdownErr ε) Nat :=
        match st.meta_log.session with
        | none => .ok 0
        | some l =>
          match l.getLast? with
          | some r => .ok r.session_end
          | none => .error .indexError
      match startE with
      | .error e =>
        { state := st, written := false, summarize_called := true,
          error := some e }
      | .ok session_start =>
        match st.meta_log.chat with
        | none =>
          { state := st, written := false, summarize_called := true,
            error := some (.keyError "chat") }
        | some chatlog =>
          let sessionRec : SessionRecord :=
            { summary := summary, session_start := session_start,
              session_end := chatlog.length }
          let ml' :=
            { st.meta_log with
              session := some ((st.meta_log.session.getD []) ++ [sessionRec]) }
          { state := { st with meta_log := ml' }, written := true,
            summarize_called := true, error := none }

/-- Opaque backend setup functions (`asymmetric.setup`,
`symmetric_ledger.setup`, `image_search.setup`); the Bool is the
`regenerate` keyword argument. -/
structure SetupOps (TC IC Entry LEntry ImgName : Type) where
  asymmetric_setup : TC → Bool → TextSearchModel Entry
  symmetric_ledger_setup : TC → Bool → TextSearchModel LEntry
  image_setup : ImageSearchConfig IC → Bool → ImageSearchModel ImgName

/-- The `/regenerate` endpoint, `src/main.py` lines 70-88: for each content
type in order Notes, Music, Ledger, Image, when the filter matches (or is
unset) and that type is configured, rebuild its handle with
`setup(..., regenerate=True)`.  Returns the updated registry (the Python
endpoint additionally returns a constant status dictionary). -/
def regenerate (t : Option SearchType) (cfg : SearchConfig TC IC)
    (m : SearchModels Entry LEntry ImgName)
    (ops : SetupOps TC IC Entry LEntry ImgName) :
    SearchModels Entry LEntry ImgName :=
  let m1 :=
    if h : (t = some SearchType.Notes ∨ t = none) ∧ cfg.notes.isSome then
      { m with notes_search := some (ops.asymmetric_setup (cfg.notes.get h.2) true) }
    else m
  let m2 :=
    if h : (t = some SearchType.Music ∨ t = none) ∧ cfg.music.isSome then
      { m1 with music_search := some (ops.asymmetric_setup (cfg.music.get h.2) true) }
    else m1
  let m3 :=
    if h : (t = some SearchType.Ledger ∨ t = none) ∧ cfg.ledger.isSome then
      { m2 with ledger_search := some (ops.symmetric_ledger_setup (cfg.ledger.get h.2) true) }
    else m2
  if h : (t = some SearchType.Image ∨ t = none) ∧ cfg.image.isSome then
    { m3 with image_search := some (ops.image_setup (cfg.image.get h.2) true) }
  else m3

/-! ## Concrete instances

Closed instantiations of the opaque collaborators and of the application
state, used to evaluate the definitions at concrete inputs. -/

/-- Concrete backend modules: notes/music collate the first `n` corpus
entries, matching a backend that found hits for every entry. -/
def mods0 : Modules String String String String Nat Nat Nat String where
  asymmetric_query := fun _ tm => .ok [tm.entries.length]
  asymmetric_collate_results := fun _ entries n => .ok (entries.take n)
  symmetric_ledger_query := fun _ _ => .ok [0]
  symmetric_ledger_collate_results := fun _ entries n => .ok (entries.take n)
  image_query := fun _ n _ => .ok [n]
  image_collate_results := fun _ names _ n => .ok (names.take n)
  entry_of := fun s => s

/-- Concrete registry with only the notes backend initialized. -/
def m0 : SearchModels String String String :=
  { notes_search := some ⟨["noteA", "noteB"]⟩ }

/-- Concrete search configuration with no content type configured. -/
def cfg0 : SearchConfig Unit Unit := {}

/-- Fresh conversation state: empty transcript, empty log. -/
def st0 : ConversationState := { chat_session := "", meta_log := {} }

/-- Classifier metadata for a notes memory lookup with refined query
"coffee". -/
def mdNotes : Metadata :=
  { intent := some { memory_type := some "notes", query := some "coffee" } }

/-- Classifier metadata for a generic (non-notes) intent. -/
def mdChat : Metadata :=
  { intent := some { memory_type := some "none" } }

/-- Concrete LLM ops whose classifier reports a notes memory intent with
refined query "coffee". -/
def gNotes : GptOps String where
  understand := fun _ => .ok mdNotes
  summarize := fun _ _ _ => .ok "sum"
  converse := fun _ _ => .ok "resp"

/-- Concrete LLM ops whose classifier reports a generic (non-notes)
intent. -/
def gChat : GptOps String where
  understand := fun _ => .ok mdChat
  summarize := fun _ _ _ => .ok "sum"
  converse := fun _ _ => .ok "resp"

/-- A non-empty conversation log as a previous process run left it on
disk: one chat turn, no session records. -/
def mlLoaded : MetaLog :=
  { chat := some [{ query := "q0", metadata := {}, response := "r0" }] }

/-- The state of a process that loaded `mlLoaded` at startup. -/
def stLoaded : ConversationState := { chat_session := "", meta_log := mlLoaded }

/-- A parser that successfully reads `mlLoaded` from the logfile. -/
def jlLoaded : Unit → Except String MetaLog := fun _ => .ok mlLoaded

/-- A parser that fails on corrupt logfile contents. -/
def jlCorrupt : Unit → Except String MetaLog := fun _ => .error "corrupt"

/-- A state whose log has two chat turns and one prior session record
ending at index 1. -/
def stTwoTurns : ConversationState :=
  { chat_session := "transcript",
    meta_log :=
      { chat := some [{ query := "q1", metadata := {}, response := "r1" },
                      { query := "q2", metadata := {}, response := "r2" }],
        session := some [{ summary := "s0", session_start := 0,
                           session_end := 1 }] } }

/-- A non-empty log that has a `"session"` key but no `"chat"` key, as a
loaded document may. -/
def stNoChatKey : ConversationState :=
  { chat_session := "",
    meta_log :=
      { session := some [{ summary := "s0", session_start := 0,
                           session_end := 2 }] } }

/-! ## Theorems -/

/-- Claim C1: for every non-empty query, every type filter and every
configuration of present/absent backend handles, `search` invokes at most
one backend; it checks types in the fixed order Notes, Music, Ledger,
Image, returns the collated results of the first type whose filter matches
and whose handle is present (never merging across types), and returns an
empty result set when no type matches with a present handle. -/
theorem search_routes_first_matching_backend (q : String) (hq : q ≠ "")
    (n : Nat) (t : Option SearchType) (cfg : SearchConfig TC IC)
    (m : SearchModels Entry LEntry ImgName)
    (mods : Modules ε Entry LEntry ImgName Hit LHit IHit R) :
    (search (some q) n t cfg m mods).invoked.length ≤ 1 ∧
    (match firstMatchingBackend t m with
     | none => search (some q) n t cfg m mods = ⟨.ok [], []⟩
     | some ty => search (some q) n t cfg m mods =
         ⟨backendOutput ty q n cfg m mods, [ty]⟩) := by
  have hq' : ¬ ((some q : Option String) = none ∨ (some q : Option String) = some "") := by
    simp [hq]
  rw [search, firstMatchingBackend, if_neg hq']
  split_ifs with h1 h2 h3 h4
  · obtain ⟨ns, hns⟩ := Option.isSome_iff_exists.mp h1.2
    simp [backendOutput, hns]
  · obtain ⟨ms, hms⟩ := Option.isSome_iff_exists.mp h2.2
    simp [backendOutput, hms]
  · obtain ⟨ls, hls⟩ := Option.isSome_iff_exists.mp h3.2
    simp [backendOutput, hls]
  · obtain ⟨is, his⟩ := Option.isSome_iff_exists.mp h4.2
    simp [backendOutput, his]
  · simp

/-- Claim C2: for every count and every type filter, a `search` call with
an absent or empty query string returns the empty result set and performs
no backend invocation. -/
theorem search_empty_query_noop (n : Nat) (t : Option SearchType)
    (cfg : SearchConfig TC IC) (m : SearchModels Entry LEntry ImgName)
    (mods : Modules ε Entry LEntry ImgName Hit LHit IHit R) :
    search (none : Option String) n t cfg m mods = ⟨.ok [], []⟩ ∧
    search (some "") n t cfg m mods = ⟨.ok [], []⟩ := by
  constructor <;> rw [search] <;> simp

/-- Claim C8: `regenerate` rebuilds exactly the handles of the content
types that match the filter (all of them when the filter is unset) and are
configured; the handle of every type that does not match the filter or is
unconfigured is left unchanged (so an unconfigured type's absent handle
stays unset). -/
theorem regenerate_rebuilds_exactly_matching_configured
    (t : Option SearchType) (cfg : SearchConfig TC IC)
    (m : SearchModels Entry LEntry ImgName)
    (ops : SetupOps TC IC Entry LEntry ImgName) :
    (regenerate t cfg m ops).notes_search =
      (if h : (t = some SearchType.Notes ∨ t = none) ∧ cfg.notes.isSome then
        some (ops.asymmetric_setup (cfg.notes.get h.2) true)
      else m.notes_search) ∧
    (regenerate t cfg m ops).music_search =
      (if h : (t = some SearchType.Music ∨ t = none) ∧ cfg.music.isSome then
        some (ops.asymmetric_setup (cfg.music.get h.2) true)
      else m.music_search) ∧
    (regenerate t cfg m ops).ledger_search =
      (if h : (t = some SearchType.Ledger ∨ t = none) ∧ cfg.ledger.isSome then
        some (ops.symmetric_ledger_setup (cfg.ledger.get h.2) true)
      else m.ledger_search) ∧
    (regenerate t cfg m ops).image_search =
      (if h : (t = some SearchType.Image ∨ t = none) ∧ cfg.image.isSome then
        some (ops.image_setup (cfg.image.get h.2) true)
      else m.image_search) := by
  refine ⟨?_, ?_, ?_, ?_⟩ <;>
    simp only [regenerate] <;>
    split_ifs <;>
    rfl

/-- Helper: a successfully completed `chat` turn replaces
`meta_log["chat"]` with the previous list (absent read as empty) extended
by exactly one turn record. -/
theorem chat_ok_chat_update (q r : String) (st st' : ConversationState)
    (cfg : SearchConfig TC IC) (m : SearchModels Entry LEntry ImgName)
    (mods : Modules ε Entry LEntry ImgName Hit LHit IHit R) (g : GptOps ε)
    (h : (chat q st cfg m mods g).2 = .ok (r, st')) :
    ∃ rec, st'.meta_log.chat = some (st.meta_log.chat.getD [] ++ [rec]) := by
  rw [chat] at h
  rcases hu : g.understand q with e | md <;> simp only [hu] at h
  · simp at h
  · by_cases hmt : memoryTypeOf md = some "notes"
    · rw [if_pos hmt] at h
      rcases hs : (search (queryOf md) 1 (some SearchType.Notes) cfg m mods).result
          with e | lst <;> simp only [hs] at h
      · simp at h
      · rcases hsum : g.summarize
            (String.intercalate "\n" (lst.map mods.entry_of)) "notes" (some q)
            with e | resp <;> simp only [hsum] at h
        · simp at h
        · simp only [Except.ok.injEq, Prod.mk.injEq] at h
          exact ⟨⟨q, md, resp⟩, by rw [← h.2]; simp [message_to_log]⟩
    · rw [if_neg hmt] at h
      rcases hc : g.converse q st.chat_session with e | resp <;>
        simp only [hc] at h
      · simp at h
      · simp only [Except.ok.injEq, Prod.mk.injEq] at h
        exact ⟨⟨q, md, resp⟩, by rw [← h.2]; simp [message_to_log]⟩

/-- Claim C3: over any sequence of chat turns, the length of
`meta_log["chat"]` grows by exactly the number of successfully completed
turns: a completed turn appends exactly one record, and a failed turn
(intent classification, search, completion or summarization raising)
leaves the state untouched, since `chat` mutates the state only after its
last fallible call. -/
theorem chat_log_counts_completed_turns (qs : List String)
    (st : ConversationState) (cfg : SearchConfig TC IC)
    (m : SearchModels Entry LEntry ImgName)
    (mods : Modules ε Entry LEntry ImgName Hit LHit IHit R) (g : GptOps ε) :
    ((runTurns cfg m mods g qs st).1).meta_log.chatLength =
      st.meta_log.chatLength + (runTurns cfg m mods g qs st).2 := by
  induction qs generalizing st with
  | nil => simp [runTurns]
  | cons q qs ih =>
    rw [runTurns]
    rcases hc : (chat q st cfg m mods g).2 with e | pr
    · simpa [hc] using ih st
    · obtain ⟨r, st'⟩ := pr
      obtain ⟨rec, hrec⟩ := chat_ok_chat_update q r st st' cfg m mods g hc
      have hlen : st'.meta_log.chatLength = st.meta_log.chatLength + 1 := by
        simp [MetaLog.chatLength, hrec]
      have hrest := ih st'
      simp only [hc]
      omega

/-- Claim C7: a chat turn whose classified intent has memory-type
`"notes"` extracts the refined query from the intent metadata, invokes
`search` with the Notes filter and count 1, joins the returned entries'
bodies with newline separators and invokes `summarize` over that
concatenation with `summary_type = "notes"` and the original user query as
context; for every other intent it invokes `converse` with the query and
the current `chat_session` as context. -/
theorem chat_dispatch_on_intent (q : String) (st : ConversationState)
    (cfg : SearchConfig TC IC) (m : SearchModels Entry LEntry ImgName)
    (mods : Modules ε Entry LEntry ImgName Hit LHit IHit R) (g : GptOps ε)
    (md : Metadata) (hu : g.understand q = .ok md) :
    (memoryTypeOf md = some "notes" →
      ∀ lst, (search (queryOf md) 1 (some SearchType.Notes) cfg m mods).result
          = .ok lst →
        (chat q st cfg m mods g).1 =
          [.understand q, .search (queryOf md) 1 (some SearchType.Notes),
           .summarize (String.intercalate "\n" (lst.map mods.entry_of))
             "notes" (some q)]) ∧
    (memoryTypeOf md ≠ some "notes" →
      (chat q st cfg m mods g).1 =
        [.understand q, .converse q st.chat_session]) := by
  constructor
  · intro hmt lst hs
    rw [chat]
    simp only [hu, if_pos hmt, hs]
    rcases hsum : g.summarize
        (String.intercalate "\n" (lst.map mods.entry_of)) "notes" (some q)
        with e | resp <;> simp [hsum]
  · intro hmt
    rw [chat]
    simp only [hu, if_neg hmt]
    rcases hc : g.converse q st.chat_session with e | resp <;> simp [hc]

/-- Claim C6: when `meta_log` is empty at shutdown, the finalization is a
no-op: state unchanged, `summarize` not invoked, no session record, no
file write, no error. -/
theorem shutdown_noop_on_empty_meta_log (g : GptOps ε)
    (st : ConversationState) (h : st.meta_log.isEmpty = true) :
    shutdown_event g st =
      { state := st, written := false, summarize_called := false,
        error := none } := by
  rw [shutdown_event, if_pos h]

/-- Claim C9: at startup, when the configured conversation log file exists
as a regular file its parsed contents become `meta_log` verbatim; a parse
failure is a fatal startup error (no silent substitution of an empty
state); when the file does not exist, `meta_log` is initialized to the
empty mapping and `chat_session` to the empty string. -/
theorem initialize_processor_load (raw : Raw)
    (json_load : Raw → Except ε MetaLog) (ml : MetaLog) (e : ε) :
    (json_load raw = .ok ml →
      initialize_processor (some raw) json_load =
        .ok { chat_session := "", meta_log := ml }) ∧
    (json_load raw = .error e →
      initialize_processor (some raw) json_load = .error e) ∧
    initialize_processor (none : Option Raw) json_load =
      .ok { chat_session := "", meta_log := {} } := by
  refine ⟨fun h => ?_, fun h => ?_, rfl⟩ <;>
    simp [initialize_processor, h]

/-- Claim C4: every session record produced by a shutdown that wrote the
log has session-end equal to the length of `meta_log["chat"]` at that
shutdown and session-start equal to the session-end of the last previous
session record, or 0 when there is no predecessor; hence for consecutive
shutdown-produced records S1 and S2, S2.session-start = S1.session-end. -/
theorem shutdown_session_record_chain (g : GptOps ε)
    (st : ConversationState) (h : (shutdown_event g st).written = true) :
    ∃ summary chatlog,
      st.meta_log.chat = some chatlog ∧
      (shutdown_event g st).state.meta_log.session =
        some ((st.meta_log.session.getD []) ++
          [{ summary := summary,
             session_start :=
               match (st.meta_log.session.getD []).getLast? with
               | none => 0
               | some s1 => s1.session_end,
             session_end := chatlog.length }]) := by
  obtain ⟨cs, mchat, msession, mothers⟩ := st
  by_cases he : (MetaLog.mk mchat msession mothers).isEmpty = true
  · rw [shutdown_event, if_pos he] at h
    exact absurd h (by simp)
  · rw [shutdown_event, if_neg he] at h ⊢
    rcases hsum : g.summarize cs "chat" none with e | summary <;>
      simp only [hsum] at h ⊢
    · simp at h
    · rcases msession with _ | l <;> dsimp only at h ⊢
      · rcases mchat with _ | chatlog <;> dsimp only at h ⊢
        · simp at h
        · exact ⟨summary, chatlog, rfl, by simp⟩
      · rcases hlast : l.getLast? with _ | r <;>
          simp only [hlast] at h ⊢
        · simp at h
        · rcases mchat with _ | chatlog <;> dsimp only at h ⊢
          · simp at h
          · exact ⟨summary, chatlog, rfl, by simp [hlast]⟩

/-- Claim C5, amended: `meta_log["session"]` grows by exactly one record
at a shutdown precisely when `meta_log` is non-empty and the finalization
raises no error; the non-emptiness needed is of the whole log, so a
process that loaded prior history appends a session record even when zero
turns completed in its own lifetime, and only a shutdown with an entirely
empty log appends nothing. -/
theorem shutdown_session_growth (g : GptOps ε) (st : ConversationState) :
    ((shutdown_event g st).error = (none : Option (ShutdownErr ε)) →
      st.meta_log.isEmpty = false →
      (shutdown_event g st).state.meta_log.sessionLength =
        st.meta_log.sessionLength + 1) ∧
    (st.meta_log.isEmpty = true → (shutdown_event g st).state = st) ∧
    (∀ err, (shutdown_event g st).error = some err →
      (shutdown_event g st).state = st) := by
  obtain ⟨cs, mchat, msession, mothers⟩ := st
  refine ⟨?_, ?_, ?_⟩
  · intro herr hne
    rw [shutdown_event, if_neg (by simp [hne])] at herr ⊢
    rcases hsum : g.summarize cs "chat" none with e | summary <;>
      simp only [hsum] at herr ⊢
    · simp at herr
    · rcases msession with _ | l <;> dsimp only at herr ⊢
      · rcases mchat with _ | chatlog <;> dsimp only at herr ⊢
        · simp at herr
        · simp [MetaLog.sessionLength]
      · rcases hlast : l.getLast? with _ | r <;>
          simp only [hlast] at herr ⊢
        · simp at herr
        · rcases mchat with _ | chatlog <;> dsimp only at herr ⊢
          · simp at herr
          · simp [MetaLog.sessionLength]
  · intro he
    rw [shutdown_event, if_pos he]
  · intro err herr
    by_cases he : (MetaLog.mk mchat msession mothers).isEmpty = true
    · rw [shutdown_event, if_pos he]
    · rw [shutdown_event, if_neg he] at herr ⊢
      rcases hsum : g.summarize cs "chat" none with e | summary <;>
        rcases msession with _ | l <;>
        rcases mchat with _ | chatlog <;>
        simp only [hsum] at herr ⊢ <;>
        first
          | rfl
          | (rcases hlast : l.getLast? with _ | r <;>
              simp only [hlast] at herr ⊢ <;> first | rfl | simp at herr)
          | simp at herr

/-- Counterexample to claim C5 as stated: a process that loads a non-empty
conversation log from disk and completes zero turns in its own lifetime
still appends a session record at shutdown — the code guards only on
`meta_log` being empty, not on turns having completed. -/
theorem shutdown_appends_session_despite_zero_turns :
    initialize_processor (some ()) jlLoaded = .ok stLoaded ∧
    (runTurns cfg0 m0 mods0 gNotes [] stLoaded).2 = 0 ∧
    stLoaded.meta_log.sessionLength = 0 ∧
    (shutdown_event gNotes
      (runTurns cfg0 m0 mods0 gNotes [] stLoaded).1).state.meta_log.sessionLength
      = 1 := by
  exact ⟨rfl, rfl, rfl, rfl⟩

/-- Claim C10: when `meta_log` is non-empty but has no `"chat"` key (and
control reaches the lookup: `summarize` succeeded and the `"session"` key
is not present-but-empty), shutdown finalization fails with the unguarded
`conversation_log["chat"]` lookup; no session record is appended, no file
is written, and the state is unchanged. -/
theorem shutdown_key_error_without_chat (g : GptOps ε)
    (st : ConversationState) (s : String)
    (h1 : st.meta_log.isEmpty = false) (h2 : st.meta_log.chat = none)
    (h3 : st.meta_log.session ≠ some ([] : List SessionRecord))
    (h4 : g.summarize st.chat_session "chat" none = .ok s) :
    shutdown_event g st =
      { state := st, written := false, summarize_called := true,
        error := some (.keyError "chat") } := by
  obtain ⟨cs, mchat, msession, mothers⟩ := st
  rw [shutdown_event, if_neg (by simp [h1])]
  simp only [h4]
  simp only [MetaLog.chat] at h2
  subst h2
  rcases msession with _ | l
  · rfl
  · have hl : l ≠ [] := by
      intro hnil
      exact h3 (by simp [MetaLog.session, hnil])
    obtain ⟨r, hlast⟩ :=
      Option.isSome_iff_exists.mp (List.getLast?_isSome.mpr hl)
    simp [hlast]

/-! ## Witnesses -/

/-- Witness for the C1 theorem at a concrete input: query "coffee", unset
filter, only the notes backend present. -/
theorem search_routes_first_matching_backend_witness :
    (search (some "coffee") 5 none cfg0 m0 mods0).invoked.length ≤ 1 ∧
    (match firstMatchingBackend (none : Option SearchType) m0 with
     | none => search (some "coffee") 5 none cfg0 m0 mods0 = ⟨.ok [], []⟩
     | some ty => search (some "coffee") 5 none cfg0 m0 mods0 =
         ⟨backendOutput ty "coffee" 5 cfg0 m0 mods0, [ty]⟩) :=
  search_routes_first_matching_backend "coffee" (by decide) 5 none cfg0 m0 mods0

/-- Witness for the C4 theorem: shutdown of `stTwoTurns` (two chat turns,
one prior session record ending at 1). -/
theorem shutdown_session_record_chain_witness :
    ∃ summary chatlog,
      stTwoTurns.meta_log.chat = some chatlog ∧
      (shutdown_event gNotes stTwoTurns).state.meta_log.session =
        some ((stTwoTurns.meta_log.session.getD []) ++
          [{ summary := summary,
             session_start :=
               match (stTwoTurns.meta_log.session.getD []).getLast? with
               | none => 0
               | some s1 => s1.session_end,
             session_end := chatlog.length }]) :=
  shutdown_session_record_chain gNotes stTwoTurns (by rfl)

/-- Witness for the C5 amended theorem: a successful non-empty shutdown
grows the session list by one, an empty-log shutdown and an erroring
shutdown leave the state unchanged. -/
theorem shutdown_session_growth_witness :
    (shutdown_event gNotes stTwoTurns).state.meta_log.sessionLength =
      stTwoTurns.meta_log.sessionLength + 1 ∧
    (shutdown_event gNotes st0).state = st0 ∧
    (shutdown_event gNotes stNoChatKey).state = stNoChatKey :=
  ⟨(shutdown_session_growth gNotes stTwoTurns).1 rfl rfl,
   (shutdown_session_growth gNotes st0).2.1 rfl,
   (shutdown_session_growth gNotes stNoChatKey).2.2 (.keyError "chat") rfl⟩

/-- Witness for the C6 theorem: shutdown with a fresh empty state. -/
theorem shutdown_noop_on_empty_meta_log_witness :
    shutdown_event gNotes st0 =
      { state := st0, written := false, summarize_called := false,
        error := none } :=
  shutdown_noop_on_empty_meta_log gNotes st0 rfl

/-- Witness for the C7 theorem: a notes-intent turn and a generic turn at
concrete inputs. -/
theorem chat_dispatch_on_intent_witness :
    (chat "what notes" st0 cfg0 m0 mods0 gNotes).1 =
      [.understand "what notes",
       .search (queryOf mdNotes) 1 (some SearchType.Notes),
       .summarize (String.intercalate "\n" (["noteA"].map mods0.entry_of))
         "notes" (some "what notes")] ∧
    (chat "hello" st0 cfg0 m0 mods0 gChat).1 =
      [.understand "hello", .converse "hello" st0.chat_session] :=
  ⟨(chat_dispatch_on_intent "what notes" st0 cfg0 m0 mods0 gNotes mdNotes
      rfl).1 rfl ["noteA"] rfl,
   (chat_dispatch_on_intent "hello" st0 cfg0 m0 mods0 gChat mdChat
      rfl).2 (by decide)⟩

/-- Witness for the C9 theorem: successful load of an existing logfile,
fatal error on a corrupt logfile, fresh initialization without one. -/
theorem initialize_processor_load_witness :
    initialize_processor (some ()) jlLoaded =
      .ok { chat_session := "", meta_log := mlLoaded } ∧
    initialize_processor (some ()) jlCorrupt = .error "corrupt" ∧
    initialize_processor (none : Option Unit) jlLoaded =
      .ok { chat_session := "", meta_log := {} } :=
  ⟨(initialize_processor_load () jlLoaded mlLoaded "corrupt").1 rfl,
   (initialize_processor_load () jlCorrupt mlLoaded "corrupt").2.1 rfl,
   (initialize_processor_load () jlLoaded mlLoaded "corrupt").2.2⟩

/-- Witness for the C10 theorem: shutdown of a state whose loaded log has
a `"session"` key but no `"chat"` key. -/
theorem shutdown_key_error_without_chat_witness :
    shutdown_event gNotes stNoChatKey =
      { state := stNoChatKey, written := false, summarize_called := true,
        error := some (.keyError "chat") } :=
  shutdown_key_error_without_chat gNotes stNoChatKey "sum" rfl rfl
    (by decide) rfl

end Khoj
